import Mathlib

/-!
Verification development for the k8s-service-lb-validator repository.

The repository is a differential connectivity checker for Kubernetes
services: a Topology Model of workloads, a Reachability Matrix of
expected/observed connectivity per ordered peer pair, a Connectivity
Prober, and a Validator whose output is the "wrong count" (number of
ordered pairs where expected differs from observed after policy
adjustment).

The functions `MustNoWrong` (tools/test_helper.go), the `podRunning`
poll condition (entities/kubernetes/exec.go) and `ExecWithOptions`
(entities/kubernetes/exec.go) are embedded directly from the source.
The matrix package (NewReachability, ExpectPeer, ValidateOrFail,
Model.ResetAllPods) is not part of the provided sources; those
definitions are modelled from the specification and are marked
accordingly in their doc comments.
-/

namespace ServiceLB

/-- Network protocol of a probe (v1.ProtocolTCP / v1.ProtocolUDP). -/
inductive Protocol
  | TCP
  | UDP
deriving DecidableEq, Repr

/-- A container of a workload: a listening port and its protocol
(entities.Container). -/
structure Container where
  port : Nat
  protocol : Protocol
deriving DecidableEq, Repr

/-- A workload (entities.Pod): identity (name, namespace), containers,
host-network flag, and the per-test mutable network attributes
(cluster IP, node port, external addresses, bound service name,
current destination port). -/
structure Pod where
  name : String
  ns : String
  containers : List Container
  hostNetwork : Bool
  clusterIP : String
  nodePort : Nat
  externalIPs : List String
  serviceName : String
  toPort : Nat
deriving DecidableEq, Repr

/-- The immutable base part of a workload: (namespace, name) identity,
containers and the host-network flag. -/
def Pod.base (p : Pod) : String × String × List Container × Bool :=
  (p.ns, p.name, p.containers, p.hostNetwork)

/-- The (namespace, name) identity of a workload. -/
def Pod.identity (p : Pod) : String × String :=
  (p.ns, p.name)

/-- Modelled from the spec: the per-workload part of `Model.ResetAllPods`
(matrix package, not in the provided sources) — clears the per-test
mutable network attributes (cluster IP, node port, external addresses,
bound service name, current destination port) of one workload. -/
def resetPod (p : Pod) : Pod :=
  { p with clusterIP := "", nodePort := 0, externalIPs := [],
           serviceName := "", toPort := 0 }

/-- The Topology Model (matrix.Model): the ordered collection of all
currently active workloads. -/
structure Model where
  pods : List Pod
deriving Repr

/-- Model.AllPods: the workload list. -/
def Model.allPods (m : Model) : List Pod := m.pods

/-- Modelled from the spec: `Model.ResetAllPods` (matrix package, not in
the provided sources) — "reset (clear per-test mutable network
attributes while keeping the base workload set)". -/
def Model.resetAllPods (m : Model) : Model :=
  ⟨m.pods.map resetPod⟩

/-- A Peer selector (matrix.Peer): a namespace plus an optional specific
workload name; the empty string means "every workload in the
namespace". -/
structure Peer where
  ns : String
  pod : String
deriving DecidableEq, Repr

/-- Modelled from the spec: whether a Peer selector matches a concrete
workload — "a Peer with only a namespace set matches every workload in
that namespace". -/
def Peer.matchesPod (sel : Peer) (p : Pod) : Bool :=
  decide (sel.ns = p.ns) && (decide (sel.pod = "") || decide (sel.pod = p.name))

/-- The Reachability Matrix (matrix.Reachability): the concrete workload
set fixed at construction, plus per ordered pair an expected and an
observed boolean. -/
structure Reachability where
  pods : List Pod
  expected : Pod → Pod → Bool
  observed : Pod → Pod → Bool

/-- Modelled from the spec: `matrix.NewReachability(peers,
defaultExpectation)` (not in the provided sources) — fills every
ordered pair's expectation with the default; no probes have run, so
every observed value starts false. -/
def newReachability (pods : List Pod) (defaultExpectation : Bool) : Reachability :=
  ⟨pods, fun _ _ => defaultExpectation, fun _ _ => false⟩

/-- Modelled from the spec: `Reachability.ExpectPeer(from, to, expected)`
(not in the provided sources) — overrides the expectation for every
concrete pair matching the from/to Peer selectors; later calls override
earlier ones for the same concrete pair. -/
def Reachability.expectPeer (r : Reachability) (a b : Peer) (v : Bool) : Reachability :=
  { r with expected := fun s d =>
      if a.matchesPod s && b.matchesPod d then v else r.expected s d }

/-- All ordered pairs (source, destination) of a workload list,
self-pairs included. -/
def orderedPairs (pods : List Pod) : List (Pod × Pod) :=
  pods.flatMap fun s => pods.map fun d => (s, d)

/-- Modelled from the spec: the wrong count — "number of ordered pairs
where expected differs from observed (after policy adjustment)". -/
def Reachability.wrongCount (r : Reachability) : Nat :=
  (orderedPairs r.pods).countP fun sd => r.expected sd.1 sd.2 != r.observed sd.1 sd.2

/-- Outcome of one connectivity probe, as classified by the Connectivity
Prober: connected (with the identity of the backend that answered),
not connected (transport-level failure: connection refused, timeout, no
route), or an execution-layer failure. -/
inductive ProbeOutcome
  | connected (endpoint : String)
  | notConnected
  | execError (msg : String)
deriving DecidableEq, Repr

/-- Whether a probe outcome is "connected". -/
def isConnected : ProbeOutcome → Bool
  | .connected _ => true
  | _ => false

/-- Whether a probe outcome is an execution-layer failure. -/
def isExecError : ProbeOutcome → Bool
  | .execError _ => true
  | _ => false

/-- Modelled from the spec: the value pair the Connectivity Prober
returns to its caller — the connected boolean and a separate error. A
transport-level failure yields (false, none); an execution-layer
failure yields an error distinct from the connected boolean. -/
def proberReturn : ProbeOutcome → Bool × Option String
  | .connected _ => (true, none)
  | .notConnected => (false, none)
  | .execError m => (false, some m)

/-- Modelled from the spec: the Validator's record step — sets each
matrix cell's observed value from the probe outcome; an execution error
records observed = false. -/
def recordObserved (r : Reachability) (probe : Pod → Pod → ProbeOutcome) : Reachability :=
  { r with observed := fun s d => isConnected (probe s d) }

/-- Modelled from the spec: the Validator's separate error count — the
number of pairs whose probe ended in an execution-layer failure,
tallied separately from connectivity mismatches. -/
def errCount (r : Reachability) (probe : Pod → Pod → ProbeOutcome) : Nat :=
  (orderedPairs r.pods).countP fun sd => isExecError (probe sd.1 sd.2)

/-- Modelled from the spec: traffic-local policy adjustment — "cells for
non-designated destinations are forced to expected = false before
comparison". -/
def trafficLocalAdjust (designated : String) (expected : Pod → Pod → Bool) :
    Pod → Pod → Bool :=
  fun s d => if d.name = designated then expected s d else false

/-- Modelled from the spec: affinity-mode observation — per source the
probe to the shared virtual address is answered by one backend
identity; the cell for destination d is observed connected exactly when
d is the backend that answered. -/
def affinityObserved (answer : Pod → Option String) : Pod → Pod → Bool :=
  fun s d => decide (answer s = some d.name)

/-- Modelled from the spec: affinity-mode validation — replaces the
observed relation of the matrix with the affinity observation. -/
def affinityValidate (r : Reachability) (answer : Pod → Option String) : Reachability :=
  { r with observed := affinityObserved answer }

/-- Modelled from the spec: traffic-local validation — applies the
traffic-local policy adjustment to the expectations and then records
the probe outcomes. -/
def trafficLocalValidate (r : Reachability) (designated : String)
    (probe : Pod → Pod → ProbeOutcome) : Reachability :=
  recordObserved { r with expected := trafficLocalAdjust designated r.expected } probe

/-- Service flavor under test (entities.ServiceType). -/
inductive ServiceType
  | ClusterIP
  | NodePort
  | LoadBalancer
  | ExternalName
  | PodIP
deriving DecidableEq, Repr

/-- One validation run description (matrix.TestCase): destination port,
protocol, reachability matrix and service flavor. -/
structure TestCase where
  toPort : Nat
  protocol : Protocol
  reachability : Reachability
  serviceType : ServiceType

/-- Modelled from the spec: `matrix.ValidateOrFail(manager, model,
testCase, itsTrafficLocal, itsAffinity)` (not in the provided sources) —
applies the policy adjustment selected by the two boolean flags,
records the observed values, and returns the wrong count together with
the separate execution-error count. -/
def validateOrFail (tc : TestCase) (probe : Pod → Pod → ProbeOutcome)
    (answer : Pod → Option String) (trafficLocal affinity : Bool)
    (designated : String) : Nat × Nat :=
  let r0 := tc.reachability
  let r1 := if trafficLocal then
      { r0 with expected := trafficLocalAdjust designated r0.expected }
    else r0
  let r2 := if affinity then affinityValidate r1 answer
    else recordObserved r1 probe
  (r2.wrongCount, errCount r1 probe)

/-- Embedded from tools/test_helper.go `MustNoWrong(wrongNum, t)`: true
exactly when a test error is raised, i.e. when wrongNum > 0. -/
def MustNoWrong (wrongNum : Int) : Bool :=
  decide (wrongNum > 0)

/-- Pod lifecycle phase (v1.PodPhase). -/
inductive PodPhase
  | Running
  | Failed
  | Succeeded
  | Pending
  | Unknown
deriving DecidableEq, Repr

/-- The errPodCompleted error string of entities/kubernetes/exec.go. -/
def errPodCompleted : String := "pod ran to completion"

/-- The timeout error of the wait package's PollImmediate. -/
def errWaitTimeout : String := "timed out waiting for the condition"

/-- Embedded from entities/kubernetes/exec.go `podRunning`: one
evaluation of the poll condition. Input: the stall threshold
(consts.PollTimesToDeterminePendingPod), the pod phase seen by this
poll, and the current pending counter for this pod. Output: the (done,
error) pair the condition returns, and the updated counter. -/
def podRunningStep (threshold : Nat) (phase : PodPhase) (cnt : Nat) :
    (Bool × Option String) × Nat :=
  match phase with
  | .Running => ((true, none), cnt)
  | .Failed => ((false, some errPodCompleted), cnt)
  | .Succeeded => ((false, some errPodCompleted), cnt)
  | .Pending =>
      if cnt + 1 > threshold then ((true, none), cnt + 1)
      else ((false, none), cnt + 1)
  | .Unknown => ((false, none), cnt)

/-- The wait.PollImmediate loop around `podRunning`: repeatedly evaluate
the condition on the phase seen at each poll; stop with ok when the
condition reports done, with the condition's error when it reports one,
and with a timeout error when the poll budget is exhausted. -/
def pollGo (threshold : Nat) (phases : Nat → PodPhase) :
    Nat → Nat → Nat → Except String Unit
  | 0, _, _ => Except.error errWaitTimeout
  | fuel + 1, i, cnt =>
    match podRunningStep threshold (phases i) cnt with
    | ((_, some e), _) => Except.error e
    | ((true, none), _) => Except.ok ()
    | ((false, none), cnt2) => pollGo threshold phases fuel (i + 1) cnt2

/-- wait.PollImmediate(poll, timeout, podRunning(...)): the bounded poll
loop, starting with a fresh pending counter. -/
def pollImmediate (threshold maxPolls : Nat) (phases : Nat → PodPhase) :
    Except String Unit :=
  pollGo threshold phases maxPolls 0 0

/-- Embedded from entities/kubernetes/exec.go
`WaitForPodRunningInNamespace`: immediate success when the pod is
already running, otherwise the bounded poll loop. -/
def waitForPodRunningInNamespace (threshold maxPolls : Nat)
    (initialPhase : PodPhase) (phases : Nat → PodPhase) : Except String Unit :=
  if initialPhase = PodPhase.Running then Except.ok ()
  else pollImmediate threshold maxPolls phases

/-- Go's unicode.IsSpace: the Unicode White_Space property, the
predicate strings.TrimSpace strips by. -/
def goIsSpace (c : Char) : Bool :=
  decide (c.toNat = 0x20 ∨ (0x9 ≤ c.toNat ∧ c.toNat ≤ 0xD) ∨ c.toNat = 0x85 ∨
    c.toNat = 0xA0 ∨ c.toNat = 0x1680 ∨ (0x2000 ≤ c.toNat ∧ c.toNat ≤ 0x200A) ∨
    c.toNat = 0x2028 ∨ c.toNat = 0x2029 ∨ c.toNat = 0x202F ∨ c.toNat = 0x205F ∨
    c.toNat = 0x3000)

/-- Go's strings.TrimSpace on a character list: drop leading whitespace,
then drop trailing whitespace. -/
def goTrimSpace (l : List Char) : List Char :=
  ((l.dropWhile goIsSpace).reverse.dropWhile goIsSpace).reverse

/-- ExecOptions of entities/kubernetes/exec.go (the fields the embedded
tail of ExecWithOptions reads). -/
structure ExecOptions where
  command : List String
  ns : String
  podName : String
  containerName : String
  captureStdout : Bool
  captureStderr : Bool
  preserveWhitespace : Bool
  quiet : Bool

/-- The streams produced by the `execute` call inside ExecWithOptions:
captured stdout and stderr buffers and the error value. -/
structure ExecStreams where
  stdout : List Char
  stderr : List Char
  err : Option String

/-- Embedded from entities/kubernetes/exec.go `ExecWithOptions` (its
result-shaping tail): if PreserveWhitespace, return the buffers and the
error unchanged; otherwise return both buffers trimmed with
strings.TrimSpace, with the error unchanged. -/
def ExecWithOptions (options : ExecOptions) (streams : ExecStreams) :
    List Char × List Char × Option String :=
  if options.preserveWhitespace then (streams.stdout, streams.stderr, streams.err)
  else (goTrimSpace streams.stdout, goTrimSpace streams.stderr, streams.err)

/-- A concrete workload with the given name, used to instantiate
theorems on small topologies. -/
def mkPod (n : String) : Pod :=
  ⟨n, "name-x", [⟨80, Protocol.TCP⟩], false, "", 0, [], "", 0⟩

/-! ## Helper lemmas -/

/-- Every element kept by takeWhile satisfies the predicate. -/
theorem takeWhile_all_eq_true {α : Type} (p : α → Bool) :
    ∀ l : List α, (l.takeWhile p).all p = true
  | [] => rfl
  | a :: l => by
    by_cases h : p a = true
    · simp only [List.takeWhile_cons, h, if_true, List.all_cons, Bool.true_and]
      exact takeWhile_all_eq_true p l
    · simp [List.takeWhile_cons, h]

/-- The first element surviving dropWhile fails the predicate. -/
theorem dropWhile_head_not {α : Type} (p : α → Bool) :
    ∀ (l : List α) (a : α) (as : List α), l.dropWhile p = a :: as → p a = false
  | [], a, as, h => by simp at h
  | b :: l, a, as, h => by
    by_cases hb : p b = true
    · rw [List.dropWhile_cons, if_pos hb] at h
      exact dropWhile_head_not p l a as h
    · rw [List.dropWhile_cons, if_neg hb] at h
      cases h
      simpa using hb

/-- dropWhile never removes a final element that fails the predicate. -/
theorem dropWhile_append_last {α : Type} (p : α → Bool) (c : α) (hc : p c = false) :
    ∀ l : List α, (l ++ [c]).dropWhile p = l.dropWhile p ++ [c]
  | [] => by simp [List.dropWhile_cons, hc]
  | a :: l => by
    by_cases ha : p a = true
    · simp only [List.cons_append, List.dropWhile_cons, ha, if_true]
      exact dropWhile_append_last p c hc l
    · simp [List.dropWhile_cons, ha]

/-- Membership in the ordered-pair enumeration of a workload list. -/
theorem mem_orderedPairs {pods : List Pod} {s d : Pod}
    (hs : s ∈ pods) (hd : d ∈ pods) : (s, d) ∈ orderedPairs pods :=
  List.mem_flatMap.mpr ⟨s, hs, List.mem_map.mpr ⟨d, hd, rfl⟩⟩

/-- The ordered-pair enumeration contains exactly the pairs of members. -/
theorem orderedPairs_mem_iff {pods : List Pod} {sd : Pod × Pod} :
    sd ∈ orderedPairs pods ↔ sd.1 ∈ pods ∧ sd.2 ∈ pods := by
  obtain ⟨s, d⟩ := sd
  constructor
  · intro h
    obtain ⟨a, ha, hm⟩ := List.mem_flatMap.mp h
    obtain ⟨b, hb, heq⟩ := List.mem_map.mp hm
    cases heq
    exact ⟨ha, hb⟩
  · intro ⟨hs, hd⟩
    exact mem_orderedPairs hs hd

/-- strings.TrimSpace splits its input into whitespace, the trimmed
core, and whitespace. -/
theorem goTrimSpace_decomposition (l : List Char) :
    ∃ pre suf, pre.all goIsSpace = true ∧ suf.all goIsSpace = true ∧
      l = pre ++ goTrimSpace l ++ suf := by
  refine ⟨l.takeWhile goIsSpace,
    ((l.dropWhile goIsSpace).reverse.takeWhile goIsSpace).reverse,
    takeWhile_all_eq_true _ _, ?_, ?_⟩
  · rw [List.all_eq_true]
    intro c hc
    rw [List.mem_reverse] at hc
    have := takeWhile_all_eq_true goIsSpace (l.dropWhile goIsSpace).reverse
    rw [List.all_eq_true] at this
    exact this c hc
  · conv_lhs => rw [← List.takeWhile_append_dropWhile (p := goIsSpace) (l := l)]
    rw [List.append_assoc]
    congr 1
    conv_lhs => rw [← List.reverse_reverse (l.dropWhile goIsSpace),
      ← List.takeWhile_append_dropWhile (p := goIsSpace)
        (l := (l.dropWhile goIsSpace).reverse)]
    rw [List.reverse_append]
    rfl

/-- The head of the trimmed string is not whitespace. -/
theorem goTrimSpace_head_not_space (l : List Char) :
    ((goTrimSpace l).head?.elim true fun c => ! goIsSpace c) = true := by
  cases hm : l.dropWhile goIsSpace with
  | nil => simp [goTrimSpace, hm]
  | cons c rest =>
    have hc : goIsSpace c = false := dropWhile_head_not _ _ _ _ hm
    simp [goTrimSpace, hm, List.reverse_cons, dropWhile_append_last _ _ hc, hc]

/-- The last character of the trimmed string is not whitespace. -/
theorem goTrimSpace_last_not_space (l : List Char) :
    ((goTrimSpace l).getLast?.elim true fun c => ! goIsSpace c) = true := by
  cases hd : (l.dropWhile goIsSpace).reverse.dropWhile goIsSpace with
  | nil => simp [goTrimSpace, hd]
  | cons a rest =>
    have ha : goIsSpace a = false := dropWhile_head_not _ _ _ _ hd
    simp [goTrimSpace, hd, List.getLast?_reverse, ha]

/-! ## Claim theorems -/

/-- Claim C1: the Validator's sole output is the wrong count — the
number of ordered pairs whose expected value differs from the observed
value after policy adjustment — and MustNoWrong raises no test error
(the test case passes) if and only if this wrong count is not strictly
positive. -/
theorem mustNoWrong_passes_iff_wrong_not_positive
    (tc : TestCase) (probe : Pod → Pod → ProbeOutcome)
    (answer : Pod → Option String) (trafficLocal affinity : Bool)
    (designated : String) :
    (MustNoWrong ((validateOrFail tc probe answer trafficLocal affinity designated).1 : Int) = false
      ↔ ¬ 0 < (validateOrFail tc probe answer trafficLocal affinity designated).1)
    ∧ ∀ r : Reachability, r.wrongCount =
        (orderedPairs r.pods).countP
          (fun sd => r.expected sd.1 sd.2 != r.observed sd.1 sd.2) := by
  refine ⟨?_, fun r => rfl⟩
  simp [MustNoWrong]

/-- Claim C4: validating a matrix built with default expectation
unreachable and no overrides against a service with zero live backends
(every probe reports not connected) yields wrong count 0, and every
destination is observed unreachable. -/
theorem endlessService_wrongCount_zero (pods : List Pod) :
    (recordObserved (newReachability pods false)
        (fun _ _ => ProbeOutcome.notConnected)).wrongCount = 0
    ∧ ∀ s d : Pod,
        (recordObserved (newReachability pods false)
          (fun _ _ => ProbeOutcome.notConnected)).observed s d = false := by
  refine ⟨?_, fun s d => rfl⟩
  simp [Reachability.wrongCount, recordObserved, newReachability, isConnected]

/-- Claim C5: ExpectPeer(A, B, true) followed by ExpectPeer(A, B, false)
leaves the final expectation false for exactly the concrete pairs
matched by A, B (last write wins) and leaves unmatched pairs at their
prior expectation; a Peer with only a namespace set matches every
workload in that namespace. -/
theorem expectPeer_last_write_wins (r : Reachability) (a b : Peer)
    (s d : Pod) (n : String) (p : Pod) :
    (((r.expectPeer a b true).expectPeer a b false).expected s d
      = if a.matchesPod s && b.matchesPod d then false else r.expected s d)
    ∧ Peer.matchesPod ⟨n, ""⟩ p = decide (n = p.ns) := by
  constructor
  · simp only [Reachability.expectPeer]
    by_cases h : (a.matchesPod s && b.matchesPod d) = true
    · simp [h]
    · simp [h]
  · simp [Peer.matchesPod]

/-- Claim C8: running the Validator a second time in immediate
succession on the same Test Case — the topology, expectations and probe
outcomes unchanged, the matrix carrying the first run's recorded
observations — yields exactly the same wrong count (and error count) as
the first run. -/
theorem validator_idempotent (tc : TestCase) (probe : Pod → Pod → ProbeOutcome)
    (answer : Pod → Option String) (trafficLocal affinity : Bool)
    (designated : String) :
    validateOrFail { tc with reachability := recordObserved tc.reachability probe }
        probe answer trafficLocal affinity designated
      = validateOrFail tc probe answer trafficLocal affinity designated := by
  cases trafficLocal <;> cases affinity <;> rfl

/-- Claim C9: the Topology Model's reset clears only the per-test
mutable network attributes of every workload (cluster IP, node port,
external addresses, bound service name, current destination port) and
leaves the base workload set — each workload's (namespace, name)
identity, containers and host-network flag, in order — unchanged. -/
theorem resetAllPods_frame (m : Model) :
    (m.resetAllPods).pods.map Pod.base = m.pods.map Pod.base
    ∧ (m.resetAllPods).pods.map Pod.identity = m.pods.map Pod.identity
    ∧ ((m.resetAllPods).pods.all fun p =>
        decide (p.clusterIP = "") && decide (p.nodePort = 0) &&
        decide (p.externalIPs = []) && decide (p.serviceName = "") &&
        decide (p.toPort = 0)) = true := by
  refine ⟨?_, ?_, ?_⟩
  · show (m.pods.map resetPod).map Pod.base = m.pods.map Pod.base
    rw [List.map_map]
    rfl
  · show (m.pods.map resetPod).map Pod.identity = m.pods.map Pod.identity
    rw [List.map_map]
    rfl
  · show ((m.pods.map resetPod).all _) = true
    rw [List.all_map]
    rw [List.all_eq_true]
    intro p _
    rfl

/-- Claim C10: ExecWithOptions returns stdout and stderr with leading
and trailing whitespace removed when PreserveWhitespace is false, and
byte-for-byte unmodified when PreserveWhitespace is true; the error
value is passed through unchanged in both cases. -/
theorem execWithOptions_whitespace (options : ExecOptions) (streams : ExecStreams) :
    ExecWithOptions { options with preserveWhitespace := true } streams
      = (streams.stdout, streams.stderr, streams.err)
    ∧ ExecWithOptions { options with preserveWhitespace := false } streams
      = (goTrimSpace streams.stdout, goTrimSpace streams.stderr, streams.err)
    ∧ (ExecWithOptions options streams).2.2 = streams.err
    ∧ (∃ pre suf, pre.all goIsSpace = true ∧ suf.all goIsSpace = true ∧
        streams.stdout = pre ++ goTrimSpace streams.stdout ++ suf)
    ∧ (∃ pre suf, pre.all goIsSpace = true ∧ suf.all goIsSpace = true ∧
        streams.stderr = pre ++ goTrimSpace streams.stderr ++ suf)
    ∧ ((goTrimSpace streams.stdout).head?.elim true fun c => ! goIsSpace c) = true
    ∧ ((goTrimSpace streams.stdout).getLast?.elim true fun c => ! goIsSpace c) = true := by
  refine ⟨rfl, rfl, ?_, goTrimSpace_decomposition _, goTrimSpace_decomposition _,
    goTrimSpace_head_not_space _, goTrimSpace_last_not_space _⟩
  unfold ExecWithOptions
  split <;> rfl

/-- Claim C2: under affinity mode, a source whose recorded backend is x
is judged correct at the cell (source, d) exactly when the probe of the
shared virtual destination is answered by d again; when a different
backend answers — the probe still reporting connected — the run's wrong
count is strictly positive. -/
theorem affinity_break_counts_wrong
    (r : Reachability) (answer : Pod → Option String) (s x : Pod) (y : String)
    (hs : s ∈ r.pods) (hx : x ∈ r.pods)
    (hrec : r.expected s x = true)
    (hans : answer s = some y) (hne : y ≠ x.name) :
    (answer s).isSome = true
    ∧ (∀ d : Pod, (affinityObserved answer s d = true ↔ answer s = some d.name))
    ∧ 0 < (affinityValidate r answer).wrongCount := by
  refine ⟨by simp [hans], fun d => by simp [affinityObserved], ?_⟩
  refine List.countP_pos_iff.mpr ⟨(s, x), mem_orderedPairs hs hx, ?_⟩
  simp [affinityValidate, affinityObserved, hrec, hans, hne]

/-- Witness for claim C2: a two-workload topology whose source pod-4
recorded backend paf-0, while the probe is answered by paf-1. -/
theorem affinity_break_counts_wrong_witness :
    (some "paf-1" : Option String).isSome = true
    ∧ 0 < (affinityValidate
        ⟨[mkPod "paf-0", mkPod "pod-4"],
          fun _ d => decide (d.name = "paf-0"), fun _ _ => false⟩
        (fun _ => some "paf-1")).wrongCount := by
  have h := affinity_break_counts_wrong
    ⟨[mkPod "paf-0", mkPod "pod-4"],
      fun _ d => decide (d.name = "paf-0"), fun _ _ => false⟩
    (fun _ => some "paf-1") (mkPod "pod-4") (mkPod "paf-0") "paf-1"
    (by decide) (by decide) (by decide) rfl (by decide)
  exact ⟨h.1, h.2.2⟩

/-- Claim C3: under traffic-local mode with one designated destination
workload, the Validator forces expected = false for every cell whose
destination is not the designated workload before comparison; given a
matrix whose expectation is true at designated destinations, the wrong
count is 0 exactly when every source reaches the designated workload
and no source reaches a non-designated workload, and the wrong count is
at least the number of cells observed reaching a non-designated
workload. -/
theorem trafficLocal_designated_only
    (r : Reachability) (designated : String) (probe : Pod → Pod → ProbeOutcome)
    (hexp : ∀ s ∈ r.pods, ∀ d ∈ r.pods, d.name = designated → r.expected s d = true) :
    (∀ s d : Pod, d.name ≠ designated →
        trafficLocalAdjust designated r.expected s d = false)
    ∧ ((trafficLocalValidate r designated probe).wrongCount = 0 ↔
        ∀ s ∈ r.pods, ∀ d ∈ r.pods,
          isConnected (probe s d) = decide (d.name = designated))
    ∧ (orderedPairs r.pods).countP
        (fun sd => !decide (sd.2.name = designated) && isConnected (probe sd.1 sd.2))
      ≤ (trafficLocalValidate r designated probe).wrongCount := by
  refine ⟨fun s d h => by simp [trafficLocalAdjust, h], ?_, ?_⟩
  · show ((orderedPairs r.pods).countP _) = 0 ↔ _
    rw [List.countP_eq_zero]
    constructor
    · intro h0 s hs d hd
      have hcell := h0 (s, d) (mem_orderedPairs hs hd)
      by_cases hdn : d.name = designated
      · simp [trafficLocalValidate, recordObserved, trafficLocalAdjust, hdn,
          hexp s hs d hd hdn] at hcell
        simp [hdn, hcell]
      · simp [trafficLocalValidate, recordObserved, trafficLocalAdjust, hdn] at hcell
        simp [hdn, hcell]
    · intro h sd hsd
      obtain ⟨hs, hd⟩ := orderedPairs_mem_iff.mp hsd
      have hval := h sd.1 hs sd.2 hd
      by_cases hdn : sd.2.name = designated
      · simp [hdn] at hval
        simp [trafficLocalValidate, recordObserved, trafficLocalAdjust, hdn,
          hexp sd.1 hs sd.2 hd hdn, hval]
      · simp [hdn] at hval
        simp [trafficLocalValidate, recordObserved, trafficLocalAdjust, hdn, hval]
  · refine List.countP_mono_left ?_
    intro sd _ hpred
    rw [Bool.and_eq_true] at hpred
    obtain ⟨hdn, hconn⟩ := hpred
    rw [Bool.not_eq_true'] at hdn
    rw [decide_eq_false_iff_not] at hdn
    simp [trafficLocalValidate, recordObserved, trafficLocalAdjust, hdn, hconn]

/-- Witness for claim C3: two workloads behind a traffic-local service
designated to pod-1, all sources reaching pod-1 and nothing else: the
wrong count is 0. -/
theorem trafficLocal_designated_only_witness :
    (trafficLocalValidate (newReachability [mkPod "pod-1", mkPod "pod-2"] true)
      "pod-1"
      (fun _ d => if d.name = "pod-1" then ProbeOutcome.connected "pod-1"
        else ProbeOutcome.notConnected)).wrongCount = 0 :=
  ((trafficLocal_designated_only
      (newReachability [mkPod "pod-1", mkPod "pod-2"] true) "pod-1"
      (fun _ d => if d.name = "pod-1" then ProbeOutcome.connected "pod-1"
        else ProbeOutcome.notConnected)
      (by decide)).2.1).mpr (by decide)

/-- Claim C6: the Connectivity Prober returns connected = false with no
error for a transport-level failure, returns an execution-layer failure
as an error distinct from the connected boolean, and the Validator does
not silently fold such an error into pass or fail: the cell records
observed = false while the separate execution-error count becomes
strictly positive. -/
theorem prober_error_handling (m : String) (r : Reachability)
    (probe : Pod → Pod → ProbeOutcome) (s d : Pod)
    (hs : s ∈ r.pods) (hd : d ∈ r.pods)
    (he : probe s d = ProbeOutcome.execError m) :
    proberReturn ProbeOutcome.notConnected = (false, none)
    ∧ (proberReturn (ProbeOutcome.execError m)).2 = some m
    ∧ (recordObserved r probe).observed s d = false
    ∧ 0 < errCount r probe := by
  refine ⟨rfl, rfl, ?_, ?_⟩
  · show isConnected (probe s d) = false
    rw [he]
    rfl
  · exact List.countP_pos_iff.mpr
      ⟨(s, d), mem_orderedPairs hs hd, by simp [isExecError, he]⟩

/-- Witness for claim C6: a one-workload topology whose only probe fails
at the execution layer; the separate error count is positive. -/
theorem prober_error_handling_witness :
    0 < errCount ⟨[mkPod "pod-1"], fun _ _ => true, fun _ _ => false⟩
      (fun _ _ => ProbeOutcome.execError "unable to upgrade connection") :=
  (prober_error_handling "unable to upgrade connection"
    ⟨[mkPod "pod-1"], fun _ _ => true, fun _ _ => false⟩
    (fun _ _ => ProbeOutcome.execError "unable to upgrade connection")
    (mkPod "pod-1") (mkPod "pod-1") (by decide) (by decide) rfl).2.2.2

/-- Claim C7 counterexample: with stall threshold 3 and a 12-poll
budget, a pod that stays Pending at every poll makes the wait loop
return success with no error — the stalled pod is not surfaced as an
error to the caller, contrary to the claim. -/
theorem pendingPod_stall_not_an_error :
    pollImmediate 3 12 (fun _ => PodPhase.Pending) = Except.ok () := rfl

/-- Claim C7 (amended): when a waited-on pod stays in the Pending phase
past the per-pod stall threshold (bounded retries on the attempt
counter), the wait gives up — but it reports completion with no error
to the caller instead of surfacing a readiness failure. -/
theorem pendingPod_stall_gives_up_without_error (threshold maxPolls : Nat)
    (h : threshold < maxPolls) :
    pollImmediate threshold maxPolls (fun _ => PodPhase.Pending) = Except.ok () := by
  have key : ∀ fuel cnt i, cnt ≤ threshold → threshold < cnt + fuel →
      pollGo threshold (fun _ => PodPhase.Pending) fuel i cnt = Except.ok () := by
    intro fuel
    induction fuel with
    | zero => intro cnt i h1 h2; omega
    | succ f ih =>
      intro cnt i h1 h2
      by_cases hc : threshold < cnt + 1
      · simp [pollGo, podRunningStep, hc]
      · simp only [pollGo, podRunningStep, if_neg (by omega : ¬ cnt + 1 > threshold)]
        exact ih (cnt + 1) (i + 1) (by omega) (by omega)
  exact key maxPolls 0 0 (by omega) (by omega)

/-- Witness for the amended claim C7: threshold 3 under a 12-poll
budget. -/
theorem pendingPod_stall_gives_up_witness :
    3 < 12 ∧ pollImmediate 3 12 (fun _ => PodPhase.Pending) = Except.ok () :=
  ⟨by decide, pendingPod_stall_gives_up_without_error 3 12 (by decide)⟩

end ServiceLB
